import Mathlib

/-!
Verification of the network-facing protocol stack of `sds1004x_bode`
(`src/sds1004x_bode/awg_server.py`): the RPCBIND/portmapper handlers, the
VXI-11 request parsing and response generators, the TCP record framing, and
the rotation of the shared VXI-11 port cell.

Byte buffers are modeled as `List Nat` (each element a byte value `< 256`
where a theorem needs it). Python slices `l[a:b]` become `listSlice`,
`l[a:]` becomes `List.drop a`. Sockets are not modeled; each handler is a
pure function from the received bytes (and the shared port-cell value) to
the bytes it sends plus the control-flow outcome that the source exhibits.
-/

/-- Python slice `l[a:b]` (with clamping at the end of the list). -/
def listSlice (l : List Nat) (a b : Nat) : List Nat := (l.take b).drop a

/-- `CommsObject.bytes_to_uint`: `int.from_bytes(bytes_seq, "big")`,
defined for a byte sequence of any length, byte 0 is the MSB. -/
def bytes_to_uint (l : List Nat) : Nat := l.foldl (fun acc b => acc * 256 + b) 0

/-- `CommsObject.uint_to_bytes`: `num.to_bytes(4, "big")` for `num < 2^32`. -/
def uint_to_bytes (num : Nat) : List Nat :=
  [num / 16777216 % 256, num / 65536 % 256, num / 256 % 256, num % 256]

/-- `CommsObject.get_xid`: `rx_packet[0x00:0x04]`. -/
def get_xid (rx_packet : List Nat) : List Nat := listSlice rx_packet 0 4

/-- `CommsObject.generate_packet_size_header`: `size | 0x80000000`, big-endian. -/
def generate_packet_size_header (size : Nat) : List Nat :=
  uint_to_bytes (size ||| 2147483648)

/-- `CommsObject.generate_rpc_header`: XID, then reply (1), accepted (0),
AUTH_NULL verifier (flavor 0, length 0), accept state success (0). -/
def generate_rpc_header (xid : List Nat) : List Nat :=
  xid ++ [0, 0, 0, 1] ++ [0, 0, 0, 0] ++ [0, 0, 0, 0] ++ [0, 0, 0, 0] ++ [0, 0, 0, 0]

/-- `CommsObject.generate_resp_data`: on UDP the RPC header plus body, on TCP
additionally prefixed by the fragment-size header over their total length. -/
def generate_resp_data (xid resp : List Nat) (on_udp : Bool) : List Nat :=
  let rpc_hdr := generate_rpc_header xid
  if on_udp then rpc_hdr ++ resp
  else generate_packet_size_header (rpc_hdr.length + resp.length) ++ rpc_hdr ++ resp

/-- The framing operation used on TCP in `generate_resp_data`
(`size_hdr + data` with `data = rpc_hdr + resp`), applied to a payload. -/
def tcp_frame (payload : List Nat) : List Nat :=
  generate_packet_size_header payload.length ++ payload

/-- RPC procedure id of PMAPPROC_GETPORT. -/
def GET_PORT : Nat := 3

/-- RPC program id of the VXI-11 Core. -/
def VXI11_CORE_ID : Nat := 395183

/-- VXI-11 procedure ids. -/
def CREATE_LINK : Nat := 10

def DEVICE_WRITE : Nat := 11

def DEVICE_READ : Nat := 12

def DESTROY_LINK : Nat := 23

/-- Function-response codes of `awg_server.py`. -/
def NOT_VXI11_ERROR : Int := -1

def NOT_GET_PORT_ERROR : Int := -2

def UNKNOWN_COMMAND_ERROR : Int := -4

def OK : Int := 0

/-- `Portmapper.get_procedure`: bytes `[0x14:0x18]` of the RPC message. -/
def get_procedure (rx_packet : List Nat) : Nat :=
  bytes_to_uint (listSlice rx_packet 20 24)

/-- `Portmapper.get_program_id`: bytes `[0x28:0x2C]` of the RPC message. -/
def get_program_id (rx_packet : List Nat) : Nat :=
  bytes_to_uint (listSlice rx_packet 40 44)

/-- `Portmapper.generate_rpcbind_response`: the current port cell value,
big-endian. -/
def generate_rpcbind_response (vxi11_port : Nat) : List Nat :=
  uint_to_bytes vxi11_port

/-- `Portmapper.process_rpcbind_request_tcp` as a function of the raw bytes
read from the accepted connection and the shared port cell value. Result:
the bytes sent (if any), whether `connection.close()` is executed in the
handler body, and the returned status code. The two rejection paths
(`return NOT_GET_PORT_ERROR` / `return NOT_VXI11_ERROR`) leave the handler
before the `connection.close()` call at its end. -/
def process_rpcbind_request_tcp (raw : List Nat) (vxi11_port : Nat) :
    Option (List Nat) × Bool × Int :=
  if 4 < raw.length then
    let rx_data := raw.drop 4
    if get_procedure rx_data ≠ GET_PORT then (none, false, NOT_GET_PORT_ERROR)
    else if get_program_id rx_data ≠ VXI11_CORE_ID then (none, false, NOT_VXI11_ERROR)
    else
      (some (generate_resp_data (get_xid rx_data) (generate_rpcbind_response vxi11_port) false),
        true, OK)
  else (none, true, OK)

/-- `Portmapper.process_rpcbind_request_udp` as a function of the received
datagram and the shared port cell value: the bytes sent back (if any) and
the returned status code (the UDP socket is never closed per-request). -/
def process_rpcbind_request_udp (rx_data : List Nat) (vxi11_port : Nat) :
    Option (List Nat) × Int :=
  if 0 < rx_data.length then
    if get_procedure rx_data ≠ GET_PORT then (none, NOT_GET_PORT_ERROR)
    else if get_program_id rx_data ≠ VXI11_CORE_ID then (none, NOT_VXI11_ERROR)
    else (some (generate_resp_data (get_xid rx_data) (generate_rpcbind_response vxi11_port) true), OK)
  else (none, OK)

/-- `AWG_ID_STRING = b"IDN-SGLT-PRI SDG0000X"` as byte values. -/
def AWG_ID_STRING : List Nat :=
  [73, 68, 78, 45, 83, 71, 76, 84, 45, 80, 82, 73, 32, 83, 68, 71, 48, 48, 48, 48, 88]

/-- Whether a byte is a UTF-8 continuation byte (`0x80..0xBF`). -/
def utf8_cont (c : Nat) : Bool := decide (128 ≤ c ∧ c ≤ 191)

/-- Allowed second byte of a 3-byte UTF-8 sequence with lead byte `b`
(`0xE0` forbids overlongs, `0xED` forbids surrogates). -/
def utf8_c1_ok3 (b c1 : Nat) : Bool :=
  if b = 224 then decide (160 ≤ c1 ∧ c1 ≤ 191)
  else if b = 237 then decide (128 ≤ c1 ∧ c1 ≤ 159)
  else utf8_cont c1

/-- Allowed second byte of a 4-byte UTF-8 sequence with lead byte `b`
(`0xF0` forbids overlongs, `0xF4` caps at U+10FFFF). -/
def utf8_c1_ok4 (b c1 : Nat) : Bool :=
  if b = 240 then decide (144 ≤ c1 ∧ c1 ≤ 191)
  else if b = 244 then decide (128 ≤ c1 ∧ c1 ≤ 143)
  else utf8_cont c1

/-- Strict UTF-8 decoding of a byte sequence to its code points, `none` on
the inputs where `bytes.decode('utf-8')` raises `UnicodeDecodeError`:
invalid lead bytes (`0x80..0xC1`, `0xF5..0xFF`), truncated sequences, bad
continuation bytes, overlong forms, surrogates and values above U+10FFFF. -/
def utf8_decode : List Nat → Option (List Nat)
  | [] => some []
  | b :: rest =>
    if b ≤ 127 then
      match utf8_decode rest with
      | some t => some (b :: t)
      | none => none
    else if 194 ≤ b ∧ b ≤ 223 then
      match rest with
      | c1 :: rest2 =>
        if utf8_cont c1 then
          match utf8_decode rest2 with
          | some t => some (((b - 192) * 64 + (c1 - 128)) :: t)
          | none => none
        else none
      | [] => none
    else if 224 ≤ b ∧ b ≤ 239 then
      match rest with
      | c1 :: c2 :: rest2 =>
        if utf8_c1_ok3 b c1 && utf8_cont c2 then
          match utf8_decode rest2 with
          | some t => some (((b - 224) * 4096 + (c1 - 128) * 64 + (c2 - 128)) :: t)
          | none => none
        else none
      | _ => none
    else if 240 ≤ b ∧ b ≤ 244 then
      match rest with
      | c1 :: c2 :: c3 :: rest2 =>
        if utf8_c1_ok4 b c1 && utf8_cont c2 && utf8_cont c3 then
          match utf8_decode rest2 with
          | some t => some (((b - 240) * 262144 + (c1 - 128) * 4096
              + (c2 - 128) * 64 + (c3 - 128)) :: t)
          | none => none
        else none
      | _ => none
    else none

/-- Python `str.isspace()` on one code point: the code points that
`str.strip()` with no argument removes. -/
def py_isspace (c : Nat) : Bool :=
  decide ((9 ≤ c ∧ c ≤ 13) ∨ (28 ≤ c ∧ c ≤ 31) ∨ c = 32 ∨ c = 133 ∨ c = 160 ∨
    c = 5760 ∨ (8192 ≤ c ∧ c ≤ 8202) ∨ c = 8232 ∨ c = 8233 ∨ c = 8239 ∨
    c = 8287 ∨ c = 12288)

/-- Python `str.strip()` on a sequence of code points: drop leading and
trailing whitespace. -/
def py_strip (s : List Nat) : List Nat :=
  ((s.dropWhile py_isspace).reverse.dropWhile py_isspace).reverse

/-- Return value of `AwgServer.parse_lxi_request`. The source has two return
statements of different arity: the wrong-program path returns the 3-tuple
`(NOT_VXI11_ERROR, None, None)`, every other return statement yields the
4-tuple `(status, vxi11_procedure, scpi_command, cmd_length)` — but the
`scpi_command.decode('utf-8')` performed just before returning raises
`UnicodeDecodeError` when the payload of a CREATE_LINK or DEVICE_WRITE
record is not valid UTF-8; `decodeError` stands for that raised exception.
In `ret4`, `scpi` carries the code points of the decoded, stripped string. -/
inductive ParseRet where
  | ret3 (status : Int) (proc : Option Nat) (scpi : Option (List Nat))
  | ret4 (status : Int) (proc : Nat) (scpi : Option (List Nat)) (cmd_length : Nat)
  | decodeError (proc : Nat) (cmd_length : Nat)
deriving DecidableEq

/-- `AwgServer.parse_lxi_request` over the raw received buffer (the program
id sits at `[0x10:0x14]`, the procedure id at `[0x18:0x1C]` of the buffer,
which still carries the 4-byte fragment header). The source sets
`scpi_command` to a byte slice in the CREATE_LINK and DEVICE_WRITE branches
and, when it is not `None`, applies `.decode('utf-8').strip()` before
returning; that final step is inlined here into the two branches that set
the slice, with its `UnicodeDecodeError` modeled by `ParseRet.decodeError`. -/
def parse_lxi_request (rx_data : List Nat) : ParseRet :=
  if bytes_to_uint (listSlice rx_data 16 20) ≠ VXI11_CORE_ID then
    ParseRet.ret3 NOT_VXI11_ERROR none none
  else
    let vxi11_procedure := bytes_to_uint (listSlice rx_data 24 28)
    if vxi11_procedure = CREATE_LINK then
      let cmd_length := bytes_to_uint (listSlice rx_data 56 60)
      match utf8_decode (listSlice rx_data 60 (60 + cmd_length)) with
      | some s => ParseRet.ret4 OK vxi11_procedure (some (py_strip s)) cmd_length
      | none => ParseRet.decodeError vxi11_procedure cmd_length
    else if vxi11_procedure = DEVICE_WRITE then
      let cmd_length := bytes_to_uint (listSlice rx_data 60 64)
      match utf8_decode (listSlice rx_data 64 (64 + cmd_length)) with
      | some s => ParseRet.ret4 OK vxi11_procedure (some (py_strip s)) cmd_length
      | none => ParseRet.decodeError vxi11_procedure cmd_length
    else if vxi11_procedure = DEVICE_READ then
      ParseRet.ret4 OK vxi11_procedure none 0
    else if vxi11_procedure = DESTROY_LINK then
      ParseRet.ret4 OK vxi11_procedure none 0
    else
      ParseRet.ret4 UNKNOWN_COMMAND_ERROR vxi11_procedure none 0

/-- `AwgServer.generate_lxi_create_link_response`: error 0, link id 0,
abort port 0, maximum receive size `0x00800000`. -/
def generate_lxi_create_link_response : List Nat :=
  [0, 0, 0, 0] ++ [0, 0, 0, 0] ++ [0, 0, 0, 0] ++ [0, 128, 0, 0]

/-- `AwgServer.generate_lxi_destroy_link_response`: error 0. -/
def generate_lxi_destroy_link_response : List Nat := [0, 0, 0, 0]

/-- `AwgServer.generate_lxi_device_write_response`: error 0, then the size
of the original command. -/
def generate_lxi_device_write_response (cmd_length : Nat) : List Nat :=
  [0, 0, 0, 0] ++ uint_to_bytes cmd_length

/-- `AwgServer.generate_lxi_idn_response`: error 0, reason END (4), the id
length plus one, the id string, then `\x0A\x00\x00`. -/
def generate_lxi_idn_response (id_string : List Nat) : List Nat :=
  [0, 0, 0, 0] ++ [0, 0, 0, 4] ++ uint_to_bytes (id_string.length + 1) ++ id_string ++ [10, 0, 0]

/-- Outcome of one iteration of the inner loop of
`AwgServer.process_lxi_requests` for one received buffer.
`skip`: `len(rx_buf) == 0`, nothing happens and the loop re-enters `recv`.
`crash`: `parse_lxi_request` returned its 3-tuple, so the 4-variable
unpacking `status, vxi11_procedure, scpi_command, cmd_length = ...` raises
`ValueError`; neither a `break` nor the `connection.close()` after the loop
executes. `decodeCrash`: `parse_lxi_request` raised `UnicodeDecodeError`
on an invalid-UTF-8 CREATE_LINK or DEVICE_WRITE payload; the uncaught
exception likewise leaves the loop without a reply, a `break`, or the
`connection.close()`. `exitNoReply`: a `break` without sending. `reply`:
the bytes are sent and the loop continues. `replyThenExit`: the bytes are
sent and then the loop breaks (DESTROY_LINK). -/
inductive LxiStep where
  | skip
  | crash
  | decodeCrash
  | exitNoReply
  | reply (data : List Nat)
  | replyThenExit (data : List Nat)
deriving DecidableEq

/-- One iteration of the inner loop of `AwgServer.process_lxi_requests`:
parse the received buffer, dispatch on the procedure, frame the response
with the XID taken from `rx_buf[0x04:]`. -/
def lxiStep (rx_buf : List Nat) : LxiStep :=
  if rx_buf.length = 0 then LxiStep.skip
  else
    match parse_lxi_request rx_buf with
    | ParseRet.ret3 _ _ _ => LxiStep.crash
    | ParseRet.decodeError _ _ => LxiStep.decodeCrash
    | ParseRet.ret4 status vxi11_procedure _ cmd_length =>
      if status = NOT_VXI11_ERROR then LxiStep.exitNoReply
      else if status = UNKNOWN_COMMAND_ERROR then LxiStep.exitNoReply
      else if vxi11_procedure = CREATE_LINK then
        LxiStep.reply (generate_resp_data (get_xid (rx_buf.drop 4))
          generate_lxi_create_link_response false)
      else if vxi11_procedure = DEVICE_WRITE then
        LxiStep.reply (generate_resp_data (get_xid (rx_buf.drop 4))
          (generate_lxi_device_write_response cmd_length) false)
      else if vxi11_procedure = DEVICE_READ then
        LxiStep.reply (generate_resp_data (get_xid (rx_buf.drop 4))
          (generate_lxi_idn_response AWG_ID_STRING) false)
      else if vxi11_procedure = DESTROY_LINK then
        LxiStep.replyThenExit (generate_resp_data (get_xid (rx_buf.drop 4))
          generate_lxi_destroy_link_response false)
      else LxiStep.exitNoReply

/-- Whether a loop iteration leaves the inner loop (by `break` or by the
unpacking `ValueError`). -/
def lxiStepExits : LxiStep → Bool
  | LxiStep.skip => false
  | LxiStep.reply _ => false
  | _ => true

/-- The port advance at the end of `AwgServer.main_loop`:
`value += 1; if value > port_end: value = port_start`, on a 32-bit
unsigned `multiprocessing.Value` cell (ctypes truncates modulo `2^32`). -/
def rotate_port (port_start port_end cur : Nat) : Nat :=
  if port_end < (cur + 1) % 4294967296 then port_start % 4294967296
  else (cur + 1) % 4294967296

/-- The port cell value after `n` completed session teardowns, starting
from the initial value `port_start` set in `AwgServer.__init__`. -/
def portAfter (port_start port_end : Nat) : Nat → Nat
  | 0 => port_start % 4294967296
  | n + 1 => rotate_port port_start port_end (portAfter port_start port_end n)

/-- A well-formed TCP GETPORT request for program 395183: fragment header,
XID `DE AD BE EF`, zeros, procedure 3 at RPC offset `0x14`, program 395183
at RPC offset `0x28`, then version/protocol/padding words. -/
def sampleGetportTcp : List Nat :=
  [128, 0, 0, 56] ++ [222, 173, 190, 239] ++ List.replicate 16 0 ++ [0, 0, 0, 3] ++
    List.replicate 16 0 ++ [0, 6, 7, 175] ++ [0, 0, 0, 1] ++ [0, 0, 0, 6] ++ [0, 0, 0, 0]

/-- An all-zero 48-byte TCP read: long enough to be processed, but its
procedure field is 0, not GETPORT. -/
def badGetportTcp : List Nat := List.replicate 48 0

/-- A VXI-11 CREATE_LINK record: fragment header, XID, padding, program
395183 at offset `0x10`, version, procedure 10 at offset `0x18`. -/
def sampleCreateLink : List Nat :=
  [128, 0, 0, 24] ++ [222, 173, 190, 239] ++ List.replicate 8 0 ++ [0, 6, 7, 175] ++
    [0, 0, 0, 1] ++ [0, 0, 0, 10]

/-- A VXI-11 DEVICE_READ record (procedure 12 at offset `0x18`). -/
def sampleDeviceRead : List Nat :=
  [128, 0, 0, 24] ++ [222, 173, 190, 239] ++ List.replicate 8 0 ++ [0, 6, 7, 175] ++
    [0, 0, 0, 1] ++ [0, 0, 0, 12]

/-- A VXI-11 DESTROY_LINK record (procedure 23 at offset `0x18`). -/
def sampleDestroyLink : List Nat :=
  [128, 0, 0, 24] ++ [222, 173, 190, 239] ++ List.replicate 8 0 ++ [0, 6, 7, 175] ++
    [0, 0, 0, 1] ++ [0, 0, 0, 23]

/-- A VXI-11 DEVICE_WRITE record: procedure 11 at offset `0x18`, data
length 5 at offset `0x3C`, followed by the 5 payload bytes. -/
def sampleDeviceWrite : List Nat :=
  [128, 0, 0, 65] ++ [222, 173, 190, 239] ++ List.replicate 8 0 ++ [0, 6, 7, 175] ++
    [0, 0, 0, 1] ++ [0, 0, 0, 11] ++ List.replicate 32 0 ++ [0, 0, 0, 5] ++
    [72, 69, 76, 76, 79]

/-- A VXI-11 DEVICE_WRITE record whose data length field (offset `0x3C`) is
1 and whose single payload byte `0xFF` is not valid UTF-8. -/
def badUtf8DeviceWrite : List Nat :=
  [128, 0, 0, 61] ++ [222, 173, 190, 239] ++ List.replicate 8 0 ++ [0, 6, 7, 175] ++
    [0, 0, 0, 1] ++ [0, 0, 0, 11] ++ List.replicate 32 0 ++ [0, 0, 0, 1] ++ [255]

/-- A VXI-11 CREATE_LINK record whose client-id length field (offset `0x38`)
is 1 and whose single client-id byte `0xFF` is not valid UTF-8. -/
def badUtf8CreateLink : List Nat :=
  [128, 0, 0, 57] ++ [222, 173, 190, 239] ++ List.replicate 8 0 ++ [0, 6, 7, 175] ++
    [0, 0, 0, 1] ++ [0, 0, 0, 10] ++ List.replicate 28 0 ++ [0, 0, 0, 1] ++ [255]

theorem foldl_byte_acc (l : List Nat) (acc : Nat) :
    l.foldl (fun a b => a * 256 + b) acc
      = acc * 256 ^ l.length + l.foldl (fun a b => a * 256 + b) 0 := by
  induction l generalizing acc with
  | nil => simp
  | cons b t ih =>
    simp only [List.foldl_cons, List.length_cons, Nat.zero_mul, Nat.zero_add]
    rw [ih (acc * 256 + b), ih b]
    ring

theorem bytes_to_uint_cons (b : Nat) (t : List Nat) :
    bytes_to_uint (b :: t) = b * 256 ^ t.length + bytes_to_uint t := by
  simp only [bytes_to_uint, List.foldl_cons]
  rw [show 0 * 256 + b = b by ring, foldl_byte_acc t b]

theorem bytes_to_uint_lt (l : List Nat) (h : ∀ x ∈ l, x < 256) :
    bytes_to_uint l < 256 ^ l.length := by
  induction l with
  | nil => simp [bytes_to_uint]
  | cons b t ih =>
    rw [bytes_to_uint_cons]
    have hb : b < 256 := h b (by simp)
    have ht : bytes_to_uint t < 256 ^ t.length := ih fun x hx => h x (by simp [hx])
    have h1 : b * 256 ^ t.length + bytes_to_uint t < (b + 1) * 256 ^ t.length := by
      nlinarith
    have h2 : (b + 1) * 256 ^ t.length ≤ 256 * 256 ^ t.length :=
      Nat.mul_le_mul_right _ (by omega)
    calc b * 256 ^ t.length + bytes_to_uint t < (b + 1) * 256 ^ t.length := h1
      _ ≤ 256 * 256 ^ t.length := h2
      _ = 256 ^ (t.length + 1) := by rw [pow_succ]; ring
      _ = 256 ^ (b :: t).length := by simp

theorem bytes_to_uint_uint_to_bytes (n : Nat) (h : n < 4294967296) :
    bytes_to_uint (uint_to_bytes n) = n := by
  simp only [uint_to_bytes, bytes_to_uint, List.foldl_cons, List.foldl_nil]
  omega

theorem uint_to_bytes_length (n : Nat) : (uint_to_bytes n).length = 4 := rfl

theorem listSlice_subset {l : List Nat} {a b : Nat} : ∀ x ∈ listSlice l a b, x ∈ l :=
  fun _ hx => List.mem_of_mem_take (List.mem_of_mem_drop hx)

theorem listSlice_length_le (l : List Nat) (a b : Nat) :
    (listSlice l a b).length ≤ b - a := by
  simp only [listSlice, List.length_drop, List.length_take]
  omega

theorem length_ge_of_slice_value {l : List Nat} {a b n : Nat}
    (hb : ∀ x ∈ l, x < 256) (h : bytes_to_uint (listSlice l a b) = n)
    (hn : 65536 ≤ n) : a + 3 ≤ l.length := by
  by_contra hc
  push_neg at hc
  have h1 : (listSlice l a b).length ≤ 2 := by
    simp only [listSlice, List.length_drop, List.length_take]
    omega
  have h2 := bytes_to_uint_lt (listSlice l a b) fun x hx => hb x (listSlice_subset x hx)
  have h3 : (256 : Nat) ^ (listSlice l a b).length ≤ 256 ^ 2 :=
    Nat.pow_le_pow_right (by norm_num) h1
  rw [h] at h2
  have h4 : n < 256 ^ 2 := lt_of_lt_of_le h2 h3
  norm_num at h4
  omega

theorem packet_size_header_length (s : Nat) : (generate_packet_size_header s).length = 4 := rfl

theorem succ_mod (n m : Nat) (hm : 0 < m) :
    (n + 1) % m = if n % m + 1 = m then 0 else n % m + 1 := by
  have h1 : (n + 1) % m = (n % m + 1) % m := by
    conv_lhs => rw [← Nat.div_add_mod n m]
    rw [Nat.add_assoc, Nat.mul_add_mod]
  rw [h1]
  by_cases h : n % m + 1 = m
  · rw [if_pos h, h, Nat.mod_self]
  · have hlt : n % m + 1 < m := by
      have := Nat.mod_lt n hm
      omega
    rw [if_neg h, Nat.mod_eq_of_lt hlt]

/-- C3: with the shared port cell initialized to `port_start` and
`port_start ≤ port_end` (both representable in the 32-bit cell), after `N`
completed VXI-11 session teardowns — each applying the rotation step of
`AwgServer.main_loop`: increment, then wrap to `port_start` when the value
exceeds `port_end` — the port cell holds
`port_start + (N mod (port_end - port_start + 1))`; in particular the
value stays in `[port_start, port_end]` after every rotation. -/
theorem c3_port_rotation (port_start port_end : Nat) (h1 : port_start ≤ port_end)
    (h2 : port_end + 1 < 4294967296) (N : Nat) :
    portAfter port_start port_end N = port_start + N % (port_end - port_start + 1) ∧
    port_start ≤ portAfter port_start port_end N ∧
    portAfter port_start port_end N ≤ port_end := by
  have hm : 0 < port_end - port_start + 1 := by omega
  have key : ∀ n, portAfter port_start port_end n
      = port_start + n % (port_end - port_start + 1) := by
    intro n
    induction n with
    | zero =>
      simp only [portAfter, Nat.zero_mod, Nat.add_zero]
      exact Nat.mod_eq_of_lt (by omega)
    | succ k ih =>
      have hmod : k % (port_end - port_start + 1) < port_end - port_start + 1 :=
        Nat.mod_lt _ hm
      simp only [portAfter, ih, rotate_port]
      have hc : port_start + k % (port_end - port_start + 1) + 1 < 4294967296 := by omega
      rw [Nat.mod_eq_of_lt hc, succ_mod k _ hm]
      by_cases h : k % (port_end - port_start + 1) + 1 = port_end - port_start + 1
      · rw [if_pos (by omega), if_pos h, Nat.mod_eq_of_lt (show port_start < 4294967296 by omega)]
        omega
      · rw [if_neg (by omega), if_neg h]
        omega
  refine ⟨key N, ?_, ?_⟩ <;> rw [key N] <;>
    [skip; have := Nat.mod_lt N hm] <;> omega

theorem c3_port_rotation_witness :
    portAfter 9010 9019 12 = 9012 ∧ 9010 ≤ portAfter 9010 9019 12 ∧
      portAfter 9010 9019 12 ≤ 9019 := by
  obtain ⟨h1, h2, h3⟩ := c3_port_rotation 9010 9019 (by norm_num) (by norm_num) 12
  refine ⟨?_, h2, h3⟩
  rw [h1]

/-- C8: for every payload of length at most 8192 bytes, the TCP framing of
`generate_resp_data` (size header from `generate_packet_size_header`, then
the data) yields a 4-byte big-endian word whose high bit is 1 and whose
low 31 bits equal the payload length, followed by the payload unchanged. -/
theorem c8_tcp_framing (payload : List Nat) (h : payload.length ≤ 8192) :
    bytes_to_uint ((tcp_frame payload).take 4) / 2 ^ 31 = 1 ∧
    bytes_to_uint ((tcp_frame payload).take 4) % 2 ^ 31 = payload.length ∧
    (tcp_frame payload).drop 4 = payload := by
  have e31 : (2 : Nat) ^ 31 = 2147483648 := by norm_num
  have htake : (tcp_frame payload).take 4 = generate_packet_size_header payload.length := by
    simp only [tcp_frame]
    exact List.take_left' (packet_size_header_length _)
  have hor : payload.length ||| 2147483648 = 2147483648 + payload.length := by
    have hlt : payload.length < 2 ^ 31 := by omega
    have h2 := Nat.mul_add_lt_is_or hlt 1
    rw [Nat.mul_one] at h2
    rw [Nat.lor_comm, ← e31]
    exact h2.symm
  have hval : bytes_to_uint ((tcp_frame payload).take 4) = 2147483648 + payload.length := by
    rw [htake, show generate_packet_size_header payload.length
        = uint_to_bytes (payload.length ||| 2147483648) from rfl, hor]
    exact bytes_to_uint_uint_to_bytes _ (by omega)
  refine ⟨?_, ?_, ?_⟩
  · rw [hval, e31]; omega
  · rw [hval, e31]; omega
  · simp only [tcp_frame]
    exact List.drop_left' (packet_size_header_length _)

theorem c8_tcp_framing_witness :
    bytes_to_uint ((tcp_frame [1, 2, 3]).take 4) / 2 ^ 31 = 1 ∧
    bytes_to_uint ((tcp_frame [1, 2, 3]).take 4) % 2 ^ 31 = 3 ∧
    (tcp_frame [1, 2, 3]).drop 4 = [1, 2, 3] := by
  obtain ⟨h1, h2, h3⟩ := c8_tcp_framing [1, 2, 3] (by norm_num)
  exact ⟨h1, h2, h3⟩

/-- C9: every RPC reply emitted (portmapper and VXI-11 alike go through
`generate_resp_data`) begins — after the TCP length prefix, when present —
with a 24-byte header: the caller's 4-byte XID verbatim, message type 1
(reply), reply state 0 (accepted), an AUTH_NULL verifier (flavor 0,
length 0) and accept state 0 (success), followed by the procedure body. -/
theorem c9_rpc_reply_header (xid resp : List Nat) (h : xid.length = 4) :
    generate_rpc_header xid
      = xid ++ [0, 0, 0, 1] ++ [0, 0, 0, 0] ++ [0, 0, 0, 0] ++ [0, 0, 0, 0] ++ [0, 0, 0, 0] ∧
    (generate_rpc_header xid).length = 24 ∧
    (generate_resp_data xid resp true).take 24 = generate_rpc_header xid ∧
    (generate_resp_data xid resp true).drop 24 = resp ∧
    ((generate_resp_data xid resp false).drop 4).take 24 = generate_rpc_header xid ∧
    ((generate_resp_data xid resp false).drop 4).drop 24 = resp := by
  have hlen : (generate_rpc_header xid).length = 24 := by
    simp [generate_rpc_header, h]
  have hudp : generate_resp_data xid resp true = generate_rpc_header xid ++ resp := rfl
  have hdrop4 : (generate_resp_data xid resp false).drop 4
      = generate_rpc_header xid ++ resp := by
    rw [show generate_resp_data xid resp false
        = generate_packet_size_header ((generate_rpc_header xid).length + resp.length)
          ++ (generate_rpc_header xid ++ resp) from rfl]
    exact List.drop_left' (packet_size_header_length _)
  refine ⟨rfl, hlen, ?_, ?_, ?_, ?_⟩
  · rw [hudp]; exact List.take_left' hlen
  · rw [hudp]; exact List.drop_left' hlen
  · rw [hdrop4]; exact List.take_left' hlen
  · rw [hdrop4]; exact List.drop_left' hlen

theorem c9_rpc_reply_header_witness :
    ((generate_resp_data [1, 2, 3, 4] [9, 9] false).drop 4).take 24
      = generate_rpc_header [1, 2, 3, 4] ∧
    ((generate_resp_data [1, 2, 3, 4] [9, 9] false).drop 4).drop 24 = [9, 9] := by
  obtain ⟨-, -, -, -, h5, h6⟩ := c9_rpc_reply_header [1, 2, 3, 4] [9, 9] (by decide)
  exact ⟨h5, h6⟩

theorem lxi_length_pos {rx : List Nat} (hb : ∀ x ∈ rx, x < 256)
    (hprog : bytes_to_uint (listSlice rx 16 20) = VXI11_CORE_ID) : rx.length ≠ 0 := by
  have h := length_ge_of_slice_value hb hprog (by norm_num [VXI11_CORE_ID])
  omega

/-- C4: in the source, a received record whose program id field (bytes
`[0x10:0x14)` of the buffer) differs from 395183 makes `parse_lxi_request`
return its 3-tuple `(NOT_VXI11_ERROR, None, None)`; the caller
`process_lxi_requests` unpacks four values from it, so the iteration ends
in the unpacking error (`LxiStep.crash`) instead of the documented break
followed by `connection.close()`. This theorem evaluates both facts at a
concrete failing input (32 zero bytes). -/
theorem c4_wrong_program_crashes_unpacking :
    parse_lxi_request (List.replicate 32 0) = ParseRet.ret3 NOT_VXI11_ERROR none none ∧
    lxiStep (List.replicate 32 0) = LxiStep.crash := by decide

/-- C5 (counterexample): the identity string `AWG_ID_STRING` does not begin
with the bytes of `SDG` (it begins with `IDN`). -/
theorem c5_counterexample_id_start :
    ¬ listSlice AWG_ID_STRING 0 3 = [83, 68, 71] := by decide

/-- C5 (amended): every DEVICE_READ request in a session is answered with a
body of error code 0, reason 4 (END), the 4-byte length field 22, the
identity bytes `IDN-SGLT-PRI SDG0000X` and the trailing bytes
`0x0A 0x00 0x00`; the identity string contains `SDG` (at byte offset 13,
the start of the model token `SDG0000X`), though it does not begin with it. -/
theorem c5_device_read_idn (rx : List Nat) (hb : ∀ x ∈ rx, x < 256)
    (hprog : bytes_to_uint (listSlice rx 16 20) = VXI11_CORE_ID)
    (hproc : bytes_to_uint (listSlice rx 24 28) = DEVICE_READ) :
    lxiStep rx = LxiStep.reply (generate_resp_data (get_xid (rx.drop 4))
      (generate_lxi_idn_response AWG_ID_STRING) false) ∧
    generate_lxi_idn_response AWG_ID_STRING
      = [0, 0, 0, 0] ++ [0, 0, 0, 4] ++ uint_to_bytes 22 ++ AWG_ID_STRING ++ [10, 0, 0] ∧
    listSlice AWG_ID_STRING 13 16 = [83, 68, 71] := by
  have hlen := lxi_length_pos hb hprog
  refine ⟨?_, by decide, by decide⟩
  simp [lxiStep, parse_lxi_request, hlen, hprog, hproc,
    CREATE_LINK, DEVICE_WRITE, DEVICE_READ, DESTROY_LINK,
    OK, NOT_VXI11_ERROR, UNKNOWN_COMMAND_ERROR]

theorem c5_device_read_idn_witness :
    lxiStep sampleDeviceRead = LxiStep.reply (generate_resp_data
      (get_xid (sampleDeviceRead.drop 4)) (generate_lxi_idn_response AWG_ID_STRING) false) ∧
    listSlice AWG_ID_STRING 13 16 = [83, 68, 71] := by
  obtain ⟨h1, -, h3⟩ := c5_device_read_idn sampleDeviceRead (by decide) (by decide) (by decide)
  exact ⟨h1, h3⟩

/-- C6 (counterexample): a DEVICE_WRITE record with data-length field 1
and the single payload byte `0xFF` — not valid UTF-8 — makes
`parse_lxi_request` raise `UnicodeDecodeError` at the decode step, so the
iteration ends in the uncaught exception and no DEVICE_WRITE response is
produced, refuting the claim that every DEVICE_WRITE request with
data-length `L` is answered with the error-0/size-`L` body. -/
theorem c6_counterexample_bad_utf8 :
    parse_lxi_request badUtf8DeviceWrite = ParseRet.decodeError DEVICE_WRITE 1 ∧
    lxiStep badUtf8DeviceWrite = LxiStep.decodeCrash := by decide

/-- C6 (amended): for every DEVICE_WRITE request whose data-length field
(bytes `[0x3C:0x40)` of the received buffer) equals `L` and whose payload
bytes decode as UTF-8, the parser reports command length `L` and the
DEVICE_WRITE response body is error code 0 followed by a 4-byte size field
that decodes back to `L`; when the payload is not valid UTF-8, the decode
raises `UnicodeDecodeError` and no reply is sent. -/
theorem c6_device_write_size (rx : List Nat) (L : Nat) (hb : ∀ x ∈ rx, x < 256)
    (hprog : bytes_to_uint (listSlice rx 16 20) = VXI11_CORE_ID)
    (hproc : bytes_to_uint (listSlice rx 24 28) = DEVICE_WRITE)
    (hL : bytes_to_uint (listSlice rx 60 64) = L) :
    (∀ s, utf8_decode (listSlice rx 64 (64 + L)) = some s →
      parse_lxi_request rx = ParseRet.ret4 OK DEVICE_WRITE (some (py_strip s)) L ∧
      lxiStep rx = LxiStep.reply (generate_resp_data (get_xid (rx.drop 4))
        (generate_lxi_device_write_response L) false) ∧
      generate_lxi_device_write_response L = [0, 0, 0, 0] ++ uint_to_bytes L ∧
      bytes_to_uint ((generate_lxi_device_write_response L).drop 4) = L) ∧
    (utf8_decode (listSlice rx 64 (64 + L)) = none →
      parse_lxi_request rx = ParseRet.decodeError DEVICE_WRITE L ∧
      lxiStep rx = LxiStep.decodeCrash) := by
  have hlen := lxi_length_pos hb hprog
  have hL32 : L < 4294967296 := by
    have h1 := bytes_to_uint_lt (listSlice rx 60 64) fun x hx => hb x (listSlice_subset x hx)
    have h2 : (listSlice rx 60 64).length ≤ 4 := by
      have := listSlice_length_le rx 60 64
      omega
    have h3 : (256 : Nat) ^ (listSlice rx 60 64).length ≤ 256 ^ 4 :=
      Nat.pow_le_pow_right (by norm_num) h2
    rw [hL] at h1
    have h4 := lt_of_lt_of_le h1 h3
    norm_num at h4
    omega
  constructor
  · intro s hdec
    refine ⟨?_, ?_, rfl, ?_⟩
    · simp [parse_lxi_request, hprog, hproc, hL, hdec, CREATE_LINK, DEVICE_WRITE, OK]
    · simp [lxiStep, parse_lxi_request, hlen, hprog, hproc, hL, hdec,
        CREATE_LINK, DEVICE_WRITE, DEVICE_READ, DESTROY_LINK,
        OK, NOT_VXI11_ERROR, UNKNOWN_COMMAND_ERROR]
    · rw [show (generate_lxi_device_write_response L).drop 4 = uint_to_bytes L from rfl]
      exact bytes_to_uint_uint_to_bytes L hL32
  · intro hdec
    constructor
    · simp [parse_lxi_request, hprog, hproc, hL, hdec, CREATE_LINK, DEVICE_WRITE]
    · simp [lxiStep, parse_lxi_request, hlen, hprog, hproc, hL, hdec,
        CREATE_LINK, DEVICE_WRITE]

theorem c6_device_write_size_witness :
    parse_lxi_request sampleDeviceWrite
      = ParseRet.ret4 OK DEVICE_WRITE (some (py_strip [72, 69, 76, 76, 79])) 5 ∧
    bytes_to_uint ((generate_lxi_device_write_response 5).drop 4) = 5 ∧
    lxiStep badUtf8DeviceWrite = LxiStep.decodeCrash := by
  obtain ⟨hsome, -⟩ :=
    c6_device_write_size sampleDeviceWrite 5 (by decide) (by decide) (by decide) (by decide)
  obtain ⟨h1, -, -, h4⟩ := hsome [72, 69, 76, 76, 79] (by decide)
  obtain ⟨-, h6⟩ := (c6_device_write_size badUtf8DeviceWrite 1 (by decide) (by decide)
    (by decide) (by decide)).2 (by decide)
  exact ⟨h1, h4, h6⟩

/-- C7 (counterexample): a CREATE_LINK record with client-id length field 1
and the single client-id byte `0xFF` — not valid UTF-8 — makes
`parse_lxi_request` raise `UnicodeDecodeError`, so this CREATE_LINK
request is answered with nothing, refuting the claim that every
CREATE_LINK request is answered with the four-word body. -/
theorem c7_counterexample_bad_utf8 :
    parse_lxi_request badUtf8CreateLink = ParseRet.decodeError CREATE_LINK 1 ∧
    lxiStep badUtf8CreateLink = LxiStep.decodeCrash := by decide

/-- C7 (amended): every CREATE_LINK request whose client-id bytes decode as
UTF-8 is answered with a body of exactly four big-endian words: error code
0, link id 0, abort port 0 and maximum receive size `0x00800000` (8388608);
when the client-id bytes are not valid UTF-8, the decode raises
`UnicodeDecodeError` and no reply is sent. -/
theorem c7_create_link (rx : List Nat) (hb : ∀ x ∈ rx, x < 256)
    (hprog : bytes_to_uint (listSlice rx 16 20) = VXI11_CORE_ID)
    (hproc : bytes_to_uint (listSlice rx 24 28) = CREATE_LINK) :
    (∀ s, utf8_decode (listSlice rx 60 (60 + bytes_to_uint (listSlice rx 56 60))) = some s →
      lxiStep rx = LxiStep.reply (generate_resp_data (get_xid (rx.drop 4))
        generate_lxi_create_link_response false)) ∧
    (utf8_decode (listSlice rx 60 (60 + bytes_to_uint (listSlice rx 56 60))) = none →
      lxiStep rx = LxiStep.decodeCrash) ∧
    generate_lxi_create_link_response
      = uint_to_bytes 0 ++ uint_to_bytes 0 ++ uint_to_bytes 0 ++ uint_to_bytes 8388608 := by
  have hlen := lxi_length_pos hb hprog
  refine ⟨?_, ?_, by decide⟩
  · intro s hdec
    simp [lxiStep, parse_lxi_request, hlen, hprog, hproc, hdec,
      CREATE_LINK, DEVICE_WRITE, DEVICE_READ, DESTROY_LINK,
      OK, NOT_VXI11_ERROR, UNKNOWN_COMMAND_ERROR]
  · intro hdec
    simp [lxiStep, parse_lxi_request, hlen, hprog, hproc, hdec, CREATE_LINK]

theorem c7_create_link_witness :
    lxiStep sampleCreateLink = LxiStep.reply (generate_resp_data
      (get_xid (sampleCreateLink.drop 4)) generate_lxi_create_link_response false) ∧
    generate_lxi_create_link_response
      = uint_to_bytes 0 ++ uint_to_bytes 0 ++ uint_to_bytes 0 ++ uint_to_bytes 8388608 ∧
    lxiStep badUtf8CreateLink = LxiStep.decodeCrash := by
  obtain ⟨hsome, -, h2⟩ := c7_create_link sampleCreateLink (by decide) (by decide) (by decide)
  obtain ⟨-, hnone, -⟩ := c7_create_link badUtf8CreateLink (by decide) (by decide) (by decide)
  exact ⟨hsome [] (by decide), h2, hnone (by decide)⟩

/-- C10 (counterexample): a DEVICE_WRITE record with an invalid-UTF-8
payload exits the inner loop (by the uncaught `UnicodeDecodeError`)
although its program id is 395183, its procedure id is among 10, 11, 12,
23, and its procedure is not DESTROY_LINK — refuting the claim that the
loop can exit only via those three causes. -/
theorem c10_counterexample_decode_exit :
    lxiStepExits (lxiStep badUtf8DeviceWrite) = true ∧
    bytes_to_uint (listSlice badUtf8DeviceWrite 16 20) = VXI11_CORE_ID ∧
    bytes_to_uint (listSlice badUtf8DeviceWrite 24 28)
      ∈ [CREATE_LINK, DEVICE_WRITE, DEVICE_READ, DESTROY_LINK] ∧
    bytes_to_uint (listSlice badUtf8DeviceWrite 24 28) ≠ DESTROY_LINK := by decide

/-- C10 (amended): in the inner loop of `process_lxi_requests`, a receive
that returns zero bytes does not exit the loop (the iteration is a no-op
and the loop re-enters the receive), so the connection-close case of the
spec's session lifetime is not enforced; an iteration leaves the loop only
when the parsed record's program id is not 395183, or its procedure id is
none of 10, 11, 12, 23, or its procedure is DESTROY_LINK (only after the
reply is produced), or its CREATE_LINK / DEVICE_WRITE payload is not valid
UTF-8 (exiting by the uncaught `UnicodeDecodeError`). -/
theorem c10_inner_loop :
    (∀ rx : List Nat, rx.length = 0 → lxiStep rx = LxiStep.skip) ∧
    (∀ rx : List Nat, lxiStepExits (lxiStep rx) = true →
      bytes_to_uint (listSlice rx 16 20) ≠ VXI11_CORE_ID ∨
      bytes_to_uint (listSlice rx 24 28) ∉ [CREATE_LINK, DEVICE_WRITE, DEVICE_READ, DESTROY_LINK] ∨
      bytes_to_uint (listSlice rx 24 28) = DESTROY_LINK ∨
      (bytes_to_uint (listSlice rx 24 28) = CREATE_LINK ∧
        utf8_decode (listSlice rx 60 (60 + bytes_to_uint (listSlice rx 56 60))) = none) ∨
      (bytes_to_uint (listSlice rx 24 28) = DEVICE_WRITE ∧
        utf8_decode (listSlice rx 64 (64 + bytes_to_uint (listSlice rx 60 64))) = none)) ∧
    (∀ rx : List Nat, rx.length ≠ 0 →
      bytes_to_uint (listSlice rx 16 20) = VXI11_CORE_ID →
      bytes_to_uint (listSlice rx 24 28) = DESTROY_LINK →
      lxiStep rx = LxiStep.replyThenExit (generate_resp_data (get_xid (rx.drop 4))
        generate_lxi_destroy_link_response false)) := by
  refine ⟨?_, ?_, ?_⟩
  · intro rx h
    simp [lxiStep, h]
  · intro rx h
    by_cases hlen : rx.length = 0
    · simp [lxiStep, hlen, lxiStepExits] at h
    by_cases hprog : bytes_to_uint (listSlice rx 16 20) = VXI11_CORE_ID
    · by_cases h10 : bytes_to_uint (listSlice rx 24 28) = CREATE_LINK
      · cases hdec : utf8_decode (listSlice rx 60 (60 + bytes_to_uint (listSlice rx 56 60))) with
        | some s =>
          exfalso
          simp [lxiStep, parse_lxi_request, lxiStepExits, hlen, hprog, h10, hdec,
            CREATE_LINK, DEVICE_WRITE, DEVICE_READ, DESTROY_LINK,
            OK, NOT_VXI11_ERROR, UNKNOWN_COMMAND_ERROR] at h
        | none =>
          exact Or.inr (Or.inr (Or.inr (Or.inl ⟨h10, rfl⟩)))
      by_cases h11 : bytes_to_uint (listSlice rx 24 28) = DEVICE_WRITE
      · cases hdec : utf8_decode (listSlice rx 64 (64 + bytes_to_uint (listSlice rx 60 64))) with
        | some s =>
          exfalso
          simp [lxiStep, parse_lxi_request, lxiStepExits, hlen, hprog, h10, h11, hdec,
            CREATE_LINK, DEVICE_WRITE, DEVICE_READ, DESTROY_LINK,
            OK, NOT_VXI11_ERROR, UNKNOWN_COMMAND_ERROR] at h
        | none =>
          exact Or.inr (Or.inr (Or.inr (Or.inr ⟨h11, rfl⟩)))
      by_cases h12 : bytes_to_uint (listSlice rx 24 28) = DEVICE_READ
      · exfalso
        simp [lxiStep, parse_lxi_request, lxiStepExits, hlen, hprog, h10, h11, h12,
          CREATE_LINK, DEVICE_WRITE, DEVICE_READ, DESTROY_LINK,
          OK, NOT_VXI11_ERROR, UNKNOWN_COMMAND_ERROR] at h
      by_cases h23 : bytes_to_uint (listSlice rx 24 28) = DESTROY_LINK
      · exact Or.inr (Or.inr (Or.inl h23))
      · refine Or.inr (Or.inl ?_)
        simp only [List.mem_cons, List.not_mem_nil, or_false]
        push_neg
        exact ⟨h10, h11, h12, h23⟩
    · exact Or.inl hprog
  · intro rx hlen hprog hproc
    simp [lxiStep, parse_lxi_request, hlen, hprog, hproc,
      CREATE_LINK, DEVICE_WRITE, DEVICE_READ, DESTROY_LINK,
      OK, NOT_VXI11_ERROR, UNKNOWN_COMMAND_ERROR]

theorem c10_inner_loop_witness :
    lxiStep ([] : List Nat) = LxiStep.skip ∧
    lxiStep sampleDestroyLink = LxiStep.replyThenExit (generate_resp_data
      (get_xid (sampleDestroyLink.drop 4)) generate_lxi_destroy_link_response false) :=
  ⟨c10_inner_loop.1 [] rfl,
    c10_inner_loop.2.2 sampleDestroyLink (by decide) (by decide) (by decide)⟩

/-- C1: for every well-formed GETPORT request naming program 395183
received by a portmapper listener (TCP or UDP), the reply has a 4-byte
big-endian body equal to the value currently held in the shared port cell,
the reply's XID equals bytes `[0x00:0x04)` of the request's RPC message
(after the TCP length prefix, when present), and on TCP the reply is
prefixed by a 4-byte length whose low 31 bits equal the size of the RPC
header plus body (24 + 4 = 28) and whose high (last-fragment) bit is set. -/
theorem c1_portmapper_getport (port : Nat) (hport : port < 4294967296) :
    (∀ raw : List Nat, (∀ x ∈ raw, x < 256) → 4 < raw.length →
      get_procedure (raw.drop 4) = GET_PORT →
      get_program_id (raw.drop 4) = VXI11_CORE_ID →
      ∃ r, process_rpcbind_request_tcp raw port = (some r, true, OK) ∧
        r.drop 28 = generate_rpcbind_response port ∧
        bytes_to_uint (r.drop 28) = port ∧
        (r.drop 4).take 4 = (raw.drop 4).take 4 ∧
        bytes_to_uint (r.take 4) % 2 ^ 31 = 28 ∧
        bytes_to_uint (r.take 4) / 2 ^ 31 = 1) ∧
    (∀ rx : List Nat, (∀ x ∈ rx, x < 256) → 0 < rx.length →
      get_procedure rx = GET_PORT →
      get_program_id rx = VXI11_CORE_ID →
      ∃ r, process_rpcbind_request_udp rx port = (some r, OK) ∧
        r.drop 24 = generate_rpcbind_response port ∧
        bytes_to_uint (r.drop 24) = port ∧
        r.take 4 = rx.take 4) := by
  constructor
  · intro raw hb hlen hproc hprog
    have hb2 : ∀ x ∈ raw.drop 4, x < 256 := fun x hx => hb x (List.mem_of_mem_drop hx)
    have h43 : 43 ≤ (raw.drop 4).length :=
      le_trans (by norm_num) (length_ge_of_slice_value hb2 hprog (by norm_num [VXI11_CORE_ID]))
    have hxlen : (get_xid (raw.drop 4)).length = 4 := by
      simp only [get_xid, listSlice, List.drop_zero, List.length_take]
      omega
    have hhdr : (generate_rpc_header (get_xid (raw.drop 4))).length = 24 := by
      simp [generate_rpc_header, hxlen]
    refine ⟨generate_resp_data (get_xid (raw.drop 4)) (generate_rpcbind_response port) false,
      ?_, ?_, ?_, ?_, ?_, ?_⟩
    case _ =>
      simp only [process_rpcbind_request_tcp]
      rw [if_pos hlen, if_neg (not_not_intro hproc), if_neg (not_not_intro hprog)]
    all_goals
      have hr : generate_resp_data (get_xid (raw.drop 4)) (generate_rpcbind_response port) false
          = generate_packet_size_header 28
            ++ (generate_rpc_header (get_xid (raw.drop 4)) ++ generate_rpcbind_response port) := by
        simp only [generate_resp_data, Bool.false_eq_true, if_false, hhdr]
        rw [show (generate_rpcbind_response port).length = 4 from rfl]
        norm_num
    case _ =>
      rw [hr, ← List.append_assoc]
      refine List.drop_left' ?_
      rw [List.length_append, packet_size_header_length, hhdr]
    case _ =>
      have hdrop28 : (generate_resp_data (get_xid (raw.drop 4))
          (generate_rpcbind_response port) false).drop 28 = generate_rpcbind_response port := by
        rw [hr, ← List.append_assoc]
        refine List.drop_left' ?_
        rw [List.length_append, packet_size_header_length, hhdr]
      rw [hdrop28]
      exact bytes_to_uint_uint_to_bytes port hport
    case _ =>
      have hdrop4 : (generate_resp_data (get_xid (raw.drop 4))
          (generate_rpcbind_response port) false).drop 4
          = generate_rpc_header (get_xid (raw.drop 4)) ++ generate_rpcbind_response port := by
        rw [hr]
        exact List.drop_left' (packet_size_header_length _)
      rw [hdrop4]
      simp only [generate_rpc_header, List.append_assoc]
      rw [List.take_left' hxlen]
      simp [get_xid, listSlice]
    case _ =>
      have htake4 : (generate_resp_data (get_xid (raw.drop 4))
          (generate_rpcbind_response port) false).take 4 = generate_packet_size_header 28 := by
        rw [hr]
        exact List.take_left' (packet_size_header_length _)
      rw [htake4]
      decide
    case _ =>
      have htake4 : (generate_resp_data (get_xid (raw.drop 4))
          (generate_rpcbind_response port) false).take 4 = generate_packet_size_header 28 := by
        rw [hr]
        exact List.take_left' (packet_size_header_length _)
      rw [htake4]
      decide
  · intro rx hb hlen hproc hprog
    have h43 : 43 ≤ rx.length :=
      le_trans (by norm_num) (length_ge_of_slice_value hb hprog (by norm_num [VXI11_CORE_ID]))
    have hxlen : (get_xid rx).length = 4 := by
      simp only [get_xid, listSlice, List.drop_zero, List.length_take]
      omega
    have hhdr : (generate_rpc_header (get_xid rx)).length = 24 := by
      simp [generate_rpc_header, hxlen]
    have hu : generate_resp_data (get_xid rx) (generate_rpcbind_response port) true
        = generate_rpc_header (get_xid rx) ++ generate_rpcbind_response port := rfl
    refine ⟨generate_resp_data (get_xid rx) (generate_rpcbind_response port) true,
      ?_, ?_, ?_, ?_⟩
    · simp only [process_rpcbind_request_udp]
      rw [if_pos hlen, if_neg (not_not_intro hproc), if_neg (not_not_intro hprog)]
    · rw [hu]
      exact List.drop_left' hhdr
    · rw [hu, List.drop_left' hhdr]
      exact bytes_to_uint_uint_to_bytes port hport
    · rw [hu]
      simp only [generate_rpc_header, List.append_assoc]
      rw [List.take_left' hxlen]
      simp [get_xid, listSlice]

theorem c1_portmapper_getport_witness :
    (∃ r, process_rpcbind_request_tcp sampleGetportTcp 9010 = (some r, true, OK) ∧
      r.drop 28 = generate_rpcbind_response 9010 ∧
      bytes_to_uint (r.drop 28) = 9010 ∧
      (r.drop 4).take 4 = (sampleGetportTcp.drop 4).take 4 ∧
      bytes_to_uint (r.take 4) % 2 ^ 31 = 28 ∧
      bytes_to_uint (r.take 4) / 2 ^ 31 = 1) ∧
    (∃ r, process_rpcbind_request_udp (sampleGetportTcp.drop 4) 9010 = (some r, OK) ∧
      r.drop 24 = generate_rpcbind_response 9010 ∧
      bytes_to_uint (r.drop 24) = 9010 ∧
      r.take 4 = (sampleGetportTcp.drop 4).take 4) :=
  ⟨(c1_portmapper_getport 9010 (by norm_num)).1 sampleGetportTcp
      (by decide) (by decide) (by decide) (by decide),
    (c1_portmapper_getport 9010 (by norm_num)).2 (sampleGetportTcp.drop 4)
      (by decide) (by decide) (by decide) (by decide)⟩

/-- C2 (counterexample): for a 48-byte all-zero TCP read (procedure field
0, not GETPORT) the handler sends nothing, as the claim states, but it
returns without executing `connection.close()` — refuting the part of the
claim that says the accepted connection is closed before the listener
resumes. -/
theorem c2_counterexample_no_close :
    (process_rpcbind_request_tcp badGetportTcp 9010).1 = none ∧
    (process_rpcbind_request_tcp badGetportTcp 9010).2.1 = false := by decide

/-- C2 (amended): for every request received by a portmapper listener whose
procedure field is not 3 (GETPORT) or whose queried program field is not
395183, no reply bytes are sent and the handler returns a non-OK status;
on TCP, however, the rejection path returns early without invoking
`connection.close()` (the explicit close runs only after a reply or a
too-short read), leaving the socket to the runtime to reclaim. -/
theorem c2_rejection (port : Nat) :
    (∀ raw : List Nat, 4 < raw.length →
      get_procedure (raw.drop 4) ≠ GET_PORT ∨ get_program_id (raw.drop 4) ≠ VXI11_CORE_ID →
      (process_rpcbind_request_tcp raw port).1 = none ∧
      (process_rpcbind_request_tcp raw port).2.1 = false ∧
      (process_rpcbind_request_tcp raw port).2.2 ≠ OK) ∧
    (∀ rx : List Nat, 0 < rx.length →
      get_procedure rx ≠ GET_PORT ∨ get_program_id rx ≠ VXI11_CORE_ID →
      (process_rpcbind_request_udp rx port).1 = none ∧
      (process_rpcbind_request_udp rx port).2 ≠ OK) := by
  constructor
  · intro raw hlen hrej
    have heq : process_rpcbind_request_tcp raw port = (none, false, NOT_GET_PORT_ERROR) ∨
        process_rpcbind_request_tcp raw port = (none, false, NOT_VXI11_ERROR) := by
      by_cases hproc : get_procedure (raw.drop 4) = GET_PORT
      · right
        have hprog := hrej.resolve_left (not_not_intro hproc)
        simp only [process_rpcbind_request_tcp]
        rw [if_pos hlen, if_neg (not_not_intro hproc), if_pos hprog]
      · left
        simp only [process_rpcbind_request_tcp]
        rw [if_pos hlen, if_pos hproc]
    rcases heq with h | h <;> rw [h] <;> exact ⟨rfl, rfl, by decide⟩
  · intro rx hlen hrej
    have heq : process_rpcbind_request_udp rx port = (none, NOT_GET_PORT_ERROR) ∨
        process_rpcbind_request_udp rx port = (none, NOT_VXI11_ERROR) := by
      by_cases hproc : get_procedure rx = GET_PORT
      · right
        have hprog := hrej.resolve_left (not_not_intro hproc)
        simp only [process_rpcbind_request_udp]
        rw [if_pos hlen, if_neg (not_not_intro hproc), if_pos hprog]
      · left
        simp only [process_rpcbind_request_udp]
        rw [if_pos hlen, if_pos hproc]
    rcases heq with h | h <;> rw [h] <;> exact ⟨rfl, by decide⟩

theorem c2_rejection_witness :
    (process_rpcbind_request_tcp badGetportTcp 9010).1 = none ∧
    (process_rpcbind_request_tcp badGetportTcp 9010).2.2 ≠ OK ∧
    (process_rpcbind_request_udp badGetportTcp 9010).1 = none ∧
    (process_rpcbind_request_udp badGetportTcp 9010).2 ≠ OK := by
  obtain ⟨h1, -, h3⟩ := (c2_rejection 9010).1 badGetportTcp (by decide) (Or.inl (by decide))
  obtain ⟨h4, h5⟩ := (c2_rejection 9010).2 badGetportTcp (by decide) (Or.inl (by decide))
  exact ⟨h1, h3, h4, h5⟩
